import Mathlib

/-!
Verification of the EIS SDK core: the consent state machine, the
integrity/coupling calculation, the audit trail, the trace validator, the
tolerance window and the trust-delta calculator.

TypeScript `number` values are embedded as `ℚ`; timestamps (`Date.now()`)
are passed explicitly as an argument where the source reads the clock.
The repository contains several near-duplicate "stability" modules; the
definitions here embed the symmetric coc/erg variant (the one the spec's
design notes designate as canonical), whose `calculateIntegrity` sets
`coc = 100 - clampedSaturation` and `erg = clampedSaturation`.
-/

namespace EIS

/-- Embeds `clamp(value, min, max) = Math.max(min, Math.min(max, value))`.
The bound parameters are named `lo`/`hi` because `min`/`max` are taken. -/
def clamp (value lo hi : ℚ) : ℚ :=
  max lo (min hi value)

/-- Integrity reading: Chain of Custody and Emotional Regulation Graph axes. -/
structure Integrity where
  coc : ℚ
  erg : ℚ
  deriving DecidableEq

/-- The four coarse system states. -/
inductive SystemState where
  | fractured
  | critical
  | narrowed
  | stable
  deriving DecidableEq

/-- Embeds `calculateIntegrity(saturation)`: clamp the saturation, then
`coc = clamp(100 - clampedSaturation, 0, 100)` and
`erg = clamp(clampedSaturation, 0, 100)`. -/
def calculateIntegrity (saturation : ℚ) : Integrity :=
  let clampedSaturation := clamp saturation 0 100
  { coc := clamp (100 - clampedSaturation) 0 100
    erg := clamp clampedSaturation 0 100 }

/-- Embeds `getSystemState(integrity)`: an if-chain on
`minIntegrity = Math.min(coc, erg)` with thresholds 20 / 40 / 80. -/
def getSystemState (integrity : Integrity) : SystemState :=
  let minIntegrity := min integrity.coc integrity.erg
  if minIntegrity < 20 then SystemState.fractured
  else if minIntegrity < 40 then SystemState.critical
  else if minIntegrity < 80 then SystemState.narrowed
  else SystemState.stable

/-- Embeds `isCoupled(integrity, threshold = 20)`:
`integrity.coc >= threshold && integrity.erg >= threshold`. -/
def isCoupled (integrity : Integrity) (threshold : ℚ := 20) : Bool :=
  decide (integrity.coc ≥ threshold) && decide (integrity.erg ≥ threshold)

/-- Rank realising the ordering Fractured < Critical < Narrowed < Stable
used by the spec's monotonicity property. -/
def SystemState.rank : SystemState → ℕ
  | SystemState.fractured => 0
  | SystemState.critical => 1
  | SystemState.narrowed => 2
  | SystemState.stable => 3

/-- Consent lifecycle states (`ConsentState` enum). -/
inductive ConsentState where
  | pending
  | granted
  | revoked
  | expired
  deriving DecidableEq

/-- Embeds the `VALID_TRANSITIONS` record literal. -/
def VALID_TRANSITIONS : ConsentState → List ConsentState
  | ConsentState.pending => [ConsentState.granted, ConsentState.revoked]
  | ConsentState.granted => [ConsentState.revoked, ConsentState.expired]
  | ConsentState.revoked => []
  | ConsentState.expired => []

/-- Embeds `isValidTransition(from, to) = VALID_TRANSITIONS[from].includes(to)`. -/
def isValidTransition (fromState toState : ConsentState) : Bool :=
  (VALID_TRANSITIONS fromState).contains toState

/-- The `ConsentStateMachine` class: a single private `state` field. -/
structure ConsentStateMachine where
  state : ConsentState
  deriving DecidableEq

/-- Embeds the constructor `constructor(initialState = ConsentState.PENDING)`. -/
def mkConsentStateMachine (initialState : ConsentState := ConsentState.pending) :
    ConsentStateMachine :=
  { state := initialState }

/-- Embeds `getState()`. -/
def ConsentStateMachine.getState (m : ConsentStateMachine) : ConsentState :=
  m.state

/-- Embeds `transition(to)`: guarded mutation returning a boolean.  The
result pairs the returned boolean with the machine after the call; the
function is total, so no exception path exists. -/
def ConsentStateMachine.transition (m : ConsentStateMachine) (toState : ConsentState) :
    Bool × ConsentStateMachine :=
  if isValidTransition m.state toState then (true, { state := toState })
  else (false, m)

/-- `AuditEvent` record; the `Record<string, unknown>` payload is embedded
as an association list with opaque string values. -/
structure AuditEvent where
  timestamp : ℚ
  eventType : String
  userId : String
  data : List (String × String)
  deriving DecidableEq

/-- The `Omit<AuditEvent, 'timestamp'>` argument of `AuditLogger.log`. -/
structure AuditEventInput where
  eventType : String
  userId : String
  data : List (String × String)
  deriving DecidableEq

/-- The `AuditLogger` class: a single private `events` array. -/
structure AuditLogger where
  events : List AuditEvent
  deriving DecidableEq

/-- Embeds `log(event)`: pushes `{...event, timestamp: Date.now()}` onto the
internal array.  `Date.now()` is passed as `now`.  The TypeScript method is
declared `: void`, so its value is `undefined`; the returned
`Option AuditEvent` embeds that value, with `none` for `undefined`. -/
def AuditLogger.log (logger : AuditLogger) (event : AuditEventInput) (now : ℚ) :
    AuditLogger × Option AuditEvent :=
  ({ events := logger.events ++ [⟨now, event.eventType, event.userId, event.data⟩] },
   none)

/-- Embeds `getEvents()`: returns a copy of the events array. -/
def AuditLogger.getEvents (logger : AuditLogger) : List AuditEvent :=
  logger.events

/-- Embeds `validateTrace(events)`: true on the empty sequence, otherwise a
single walk returning false at the first timestamp inversion
(`events[i].timestamp < events[i-1].timestamp`). -/
def validateTrace : List AuditEvent → Bool
  | [] => true
  | [_] => true
  | a :: b :: rest =>
      if b.timestamp < a.timestamp then false
      else validateTrace (b :: rest)

/-- `TrustMetrics` record. -/
structure TrustMetrics where
  baseline : ℚ
  current : ℚ
  delta : ℚ
  deriving DecidableEq

/-- Embeds `calculateTrustDelta(baseline, current)` with its
`baseline === 0 && current === 0` special case. -/
def calculateTrustDelta (baseline current : ℚ) : TrustMetrics :=
  if baseline = 0 ∧ current = 0 then
    { baseline := baseline, current := current, delta := 0 }
  else
    { baseline := baseline, current := current, delta := current - baseline }

/-- `ToleranceWindow` record. -/
structure ToleranceWindow where
  baseline : ℚ
  variance : ℚ
  timestamp : ℚ
  deriving DecidableEq

/-- Embeds `createToleranceWindow(baseline, variance)`; `Date.now()` is
passed as `now`. -/
def createToleranceWindow (baseline variance now : ℚ) : ToleranceWindow :=
  { baseline := baseline, variance := variance, timestamp := now }

/-- Embeds `isWithinTolerance(value, window)`. -/
def isWithinTolerance (value : ℚ) (window : ToleranceWindow) : Bool :=
  let lowerBound := window.baseline - window.variance
  let upperBound := window.baseline + window.variance
  decide (value ≥ lowerBound) && decide (value ≤ upperBound)

/-! ### Helper lemmas about `clamp` -/

lemma clamp_lo_le (value lo hi : ℚ) : lo ≤ clamp value lo hi :=
  le_max_left _ _

lemma clamp_le_hi (value lo hi : ℚ) (h : lo ≤ hi) : clamp value lo hi ≤ hi :=
  max_le h (min_le_left _ _)

lemma clamp_of_mem (value lo hi : ℚ) (h1 : lo ≤ value) (h2 : value ≤ hi) :
    clamp value lo hi = value := by
  unfold clamp
  rw [min_eq_right h2, max_eq_right h1]

lemma clamp_mono (v w lo hi : ℚ) (h : v ≤ w) :
    clamp v lo hi ≤ clamp w lo hi :=
  max_le_max le_rfl (min_le_min le_rfl h)

lemma clamp_hundred_sub (s : ℚ) :
    clamp (100 - s) 0 100 = 100 - clamp s 0 100 := by
  unfold clamp
  rcases le_total s 0 with h0 | h0
  · rw [min_eq_right (by linarith : s ≤ (100 : ℚ)), max_eq_left h0,
      min_eq_left (by linarith : (100 : ℚ) ≤ 100 - s),
      max_eq_right (by norm_num : (0 : ℚ) ≤ 100)]
    norm_num
  · rcases le_total s 100 with h1 | h1
    · rw [min_eq_right h1, max_eq_right h0,
        min_eq_right (by linarith : 100 - s ≤ (100 : ℚ)),
        max_eq_right (by linarith : (0 : ℚ) ≤ 100 - s)]
    · rw [min_eq_left h1, max_eq_right (by norm_num : (0 : ℚ) ≤ 100),
        min_eq_right (by linarith : 100 - s ≤ (100 : ℚ)),
        max_eq_left (by linarith : 100 - s ≤ (0 : ℚ))]
      norm_num

lemma clamp_idem (s : ℚ) : clamp (clamp s 0 100) 0 100 = clamp s 0 100 :=
  clamp_of_mem _ _ _ (clamp_lo_le s 0 100) (clamp_le_hi s 0 100 (by norm_num))

lemma calculateIntegrity_coc (s : ℚ) :
    (calculateIntegrity s).coc = 100 - clamp s 0 100 := by
  show clamp (100 - clamp s 0 100) 0 100 = 100 - clamp s 0 100
  rw [clamp_hundred_sub, clamp_idem]

lemma calculateIntegrity_erg (s : ℚ) :
    (calculateIntegrity s).erg = clamp s 0 100 := by
  show clamp (clamp s 0 100) 0 100 = clamp s 0 100
  exact clamp_idem s

lemma getSystemState_eq_fractured_iff (I : Integrity) :
    getSystemState I = SystemState.fractured ↔ min I.coc I.erg < 20 := by
  simp only [getSystemState]
  split_ifs with h1 h2 h3 <;> simp_all

lemma getSystemState_mono (I J : Integrity)
    (h : min I.coc I.erg ≤ min J.coc J.erg) :
    SystemState.rank (getSystemState I) ≤ SystemState.rank (getSystemState J) := by
  simp only [getSystemState]
  split_ifs <;> simp only [SystemState.rank] <;> first | omega | (exfalso; linarith)

lemma getSystemState_congr_min (I J : Integrity)
    (h : min I.coc I.erg = min J.coc J.erg) :
    getSystemState I = getSystemState J := by
  simp only [getSystemState, h]

lemma getSystemState_ne_stable (I : Integrity) (h : min I.coc I.erg < 80) :
    getSystemState I ≠ SystemState.stable := by
  simp only [getSystemState]
  split_ifs with h1 h2 <;> simp

lemma min_axes (t : ℚ) :
    min (calculateIntegrity t).coc (calculateIntegrity t).erg =
      min (100 - clamp t 0 100) (clamp t 0 100) := by
  rw [calculateIntegrity_coc, calculateIntegrity_erg]

/-! ### Claim theorems -/

/-- Claim C1: for every saturation input `s` (including `s < 0` and
`s > 100`), `calculateIntegrity s` clamps `s` to `[0, 100]` and returns
`coc = 100 - clampedSaturation` and `erg = clampedSaturation`; both axes lie
in `[0, 100]` and their sum is exactly `100`. -/
theorem calculateIntegrity_clamps_and_sums_to_hundred (s : ℚ) :
    (calculateIntegrity s).coc = 100 - clamp s 0 100 ∧
    (calculateIntegrity s).erg = clamp s 0 100 ∧
    0 ≤ (calculateIntegrity s).coc ∧ (calculateIntegrity s).coc ≤ 100 ∧
    0 ≤ (calculateIntegrity s).erg ∧ (calculateIntegrity s).erg ≤ 100 ∧
    (calculateIntegrity s).coc + (calculateIntegrity s).erg = 100 := by
  have hlo : (0 : ℚ) ≤ clamp s 0 100 := clamp_lo_le s 0 100
  have hhi : clamp s 0 100 ≤ 100 := clamp_le_hi s 0 100 (by norm_num)
  rw [calculateIntegrity_coc, calculateIntegrity_erg]
  refine ⟨rfl, rfl, by linarith, by linarith, hlo, hhi, by ring⟩

/-- Claim C2: `getSystemState` returns the band of the minimum axis with
lower-bound-inclusive thresholds 20 / 40 / 80 evaluated in ascending order,
and in particular maps `calculateIntegrity 50` to narrowed and
`calculateIntegrity 20` to critical. -/
theorem getSystemState_bands (I : Integrity) :
    (min I.coc I.erg < 20 → getSystemState I = SystemState.fractured) ∧
    (20 ≤ min I.coc I.erg → min I.coc I.erg < 40 →
      getSystemState I = SystemState.critical) ∧
    (40 ≤ min I.coc I.erg → min I.coc I.erg < 80 →
      getSystemState I = SystemState.narrowed) ∧
    (80 ≤ min I.coc I.erg → getSystemState I = SystemState.stable) ∧
    getSystemState (calculateIntegrity 50) = SystemState.narrowed ∧
    getSystemState (calculateIntegrity 20) = SystemState.critical := by
  refine ⟨fun h => ?_, fun h1 h2 => ?_, fun h1 h2 => ?_, fun h => ?_,
    by norm_num [getSystemState, calculateIntegrity, clamp, min_def, max_def],
    by norm_num [getSystemState, calculateIntegrity, clamp, min_def, max_def]⟩ <;>
    simp only [getSystemState] <;> split_ifs <;>
    first
      | rfl
      | (exfalso; linarith)

/-- Claim C2 witness: the band implications applied at concrete integrity
pairs. -/
theorem getSystemState_bands_witness :
    getSystemState ⟨90, 10⟩ = SystemState.fractured ∧
    getSystemState ⟨80, 20⟩ = SystemState.critical ∧
    getSystemState ⟨50, 50⟩ = SystemState.narrowed ∧
    getSystemState ⟨85, 85⟩ = SystemState.stable :=
  ⟨(getSystemState_bands ⟨90, 10⟩).1 (by norm_num [min_def]),
   (getSystemState_bands ⟨80, 20⟩).2.1 (by norm_num [min_def]) (by norm_num [min_def]),
   (getSystemState_bands ⟨50, 50⟩).2.2.1 (by norm_num [min_def]) (by norm_num [min_def]),
   (getSystemState_bands ⟨85, 85⟩).2.2.2.1 (by norm_num [min_def])⟩

/-- Claim C3: `isValidTransition` accepts exactly the four pairs
pending→granted, pending→revoked, granted→revoked, granted→expired, and
rejects every other pair, including self-transitions and transitions out of
the terminal states revoked and expired. -/
theorem isValidTransition_table (fromState toState : ConsentState) :
    isValidTransition fromState toState = true ↔
      ((fromState = ConsentState.pending ∧ toState = ConsentState.granted) ∨
       (fromState = ConsentState.pending ∧ toState = ConsentState.revoked) ∨
       (fromState = ConsentState.granted ∧ toState = ConsentState.revoked) ∨
       (fromState = ConsentState.granted ∧ toState = ConsentState.expired)) := by
  cases fromState <;> cases toState <;> decide

/-- Claim C4: `transition` moves to the target state and returns true when
`isValidTransition` holds for the current state, and otherwise returns false
leaving the state unchanged; being a total function it throws no
exception. -/
theorem ConsentStateMachine.transition_spec (m : ConsentStateMachine)
    (toState : ConsentState) :
    (isValidTransition m.state toState = true →
      (m.transition toState).1 = true ∧
      (m.transition toState).2.getState = toState) ∧
    (isValidTransition m.state toState = false →
      (m.transition toState).1 = false ∧
      (m.transition toState).2 = m) := by
  constructor <;> intro h <;>
    simp [ConsentStateMachine.transition, ConsentStateMachine.getState, h]

/-- Claim C4 witness: a valid transition out of pending and an invalid one
out of the terminal state revoked. -/
theorem ConsentStateMachine.transition_spec_witness :
    ((ConsentStateMachine.transition ⟨ConsentState.pending⟩ ConsentState.granted).1 = true ∧
     (ConsentStateMachine.transition ⟨ConsentState.pending⟩
        ConsentState.granted).2.getState = ConsentState.granted) ∧
    ((ConsentStateMachine.transition ⟨ConsentState.revoked⟩ ConsentState.granted).1 = false ∧
     (ConsentStateMachine.transition ⟨ConsentState.revoked⟩
        ConsentState.granted).2 = ⟨ConsentState.revoked⟩) :=
  ⟨(ConsentStateMachine.transition_spec ⟨ConsentState.pending⟩ ConsentState.granted).1
      (by decide),
   (ConsentStateMachine.transition_spec ⟨ConsentState.revoked⟩ ConsentState.granted).2
      (by decide)⟩

/-- Claim C5 counterexample: the composed map
`s ↦ getSystemState (calculateIntegrity s)` is not monotonically
non-increasing.  At `s1 = 0 ≤ s2 = 50` the state at `s1` is fractured and the
state at `s2` is narrowed, so the state at `s1` is strictly below — not
above — the state at `s2` in the ordering
fractured < critical < narrowed < stable. -/
theorem saturationState_not_antitone :
    (0 : ℚ) ≤ 50 ∧
    getSystemState (calculateIntegrity 0) = SystemState.fractured ∧
    getSystemState (calculateIntegrity 50) = SystemState.narrowed ∧
    ¬ (SystemState.rank (getSystemState (calculateIntegrity 50)) ≤
        SystemState.rank (getSystemState (calculateIntegrity 0))) := by
  have h0 : getSystemState (calculateIntegrity 0) = SystemState.fractured := by
    norm_num [getSystemState, calculateIntegrity, clamp, min_def, max_def]
  have h50 : getSystemState (calculateIntegrity 50) = SystemState.narrowed := by
    norm_num [getSystemState, calculateIntegrity, clamp, min_def, max_def]
  refine ⟨by norm_num, h0, h50, ?_⟩
  rw [h0, h50]
  simp [SystemState.rank]

/-- Claim C5 amended: the composed map
`s ↦ getSystemState (calculateIntegrity s)` is monotonically non-increasing
only on saturations `≥ 50`: for `50 ≤ s1 ≤ s2` the state at `s1` is at least
the state at `s2` in the ordering fractured < critical < narrowed < stable.
Globally the map is symmetric about 50 — the state at `s` equals the state at
`100 − s` — and it never attains Stable, since
`min(axisA, axisB) ≤ 50 < 80`. -/
theorem saturationState_antitone_upper_half (s1 s2 s : ℚ)
    (h50 : 50 ≤ s1) (h12 : s1 ≤ s2) :
    SystemState.rank (getSystemState (calculateIntegrity s2)) ≤
      SystemState.rank (getSystemState (calculateIntegrity s1)) ∧
    getSystemState (calculateIntegrity s) =
      getSystemState (calculateIntegrity (100 - s)) ∧
    getSystemState (calculateIntegrity s) ≠ SystemState.stable := by
  refine ⟨?_, ?_, ?_⟩
  · apply getSystemState_mono
    rw [min_axes, min_axes]
    have hc1 : (50 : ℚ) ≤ clamp s1 0 100 := by
      have h := clamp_mono 50 s1 0 100 h50
      rwa [clamp_of_mem 50 0 100 (by norm_num) (by norm_num)] at h
    have hc12 : clamp s1 0 100 ≤ clamp s2 0 100 := clamp_mono _ _ _ _ h12
    rw [min_eq_left (by linarith), min_eq_left (by linarith)]
    linarith
  · apply getSystemState_congr_min
    rw [min_axes, min_axes, clamp_hundred_sub, sub_sub_cancel]
    exact min_comm _ _
  · apply getSystemState_ne_stable
    rw [min_axes]
    rcases le_total (clamp s 0 100) 50 with h | h
    · have hm := min_le_right (100 - clamp s 0 100) (clamp s 0 100)
      linarith
    · have hm := min_le_left (100 - clamp s 0 100) (clamp s 0 100)
      linarith

/-- Claim C5 amended witness: the amended statement applied at
`s1 = 50`, `s2 = 60`, `s = 30`. -/
theorem saturationState_antitone_upper_half_witness :
    SystemState.rank (getSystemState (calculateIntegrity 60)) ≤
      SystemState.rank (getSystemState (calculateIntegrity 50)) ∧
    getSystemState (calculateIntegrity 30) =
      getSystemState (calculateIntegrity (100 - 30)) ∧
    getSystemState (calculateIntegrity 30) ≠ SystemState.stable :=
  saturationState_antitone_upper_half 50 60 30 (by norm_num) (by norm_num)

/-- Claim C6: `isCoupled integrity t` holds exactly when both axes are at
least `t`, and at the default threshold 20 coupling is lost exactly when the
state derived from the saturation is fractured. -/
theorem isCoupled_iff_both_axes (I : Integrity) (t s : ℚ) :
    (isCoupled I t = true ↔ t ≤ I.coc ∧ t ≤ I.erg) ∧
    (isCoupled (calculateIntegrity s) = false ↔
      getSystemState (calculateIntegrity s) = SystemState.fractured) := by
  constructor
  · simp [isCoupled, ge_iff_le]
  · have hiff : isCoupled (calculateIntegrity s) = false ↔
        ¬ (isCoupled (calculateIntegrity s) = true) := by simp
    rw [hiff, getSystemState_eq_fractured_iff, min_lt_iff]
    simp only [isCoupled, Bool.and_eq_true, decide_eq_true_eq, ge_iff_le,
      not_and_or, not_le]

/-- Claim C7: `validateTrace` returns true on the empty sequence, and in
general returns true exactly when each event's timestamp is greater than or
equal to the previous event's timestamp; being a pure function of the list it
cannot modify the sequence. -/
theorem validateTrace_iff_sorted (events : List AuditEvent) :
    validateTrace [] = true ∧
    (validateTrace events = true ↔
      events.Chain' (fun a b => a.timestamp ≤ b.timestamp)) := by
  refine ⟨rfl, ?_⟩
  induction events with
  | nil => simp [validateTrace]
  | cons a rest ih =>
    cases rest with
    | nil => simp [validateTrace]
    | cons b t =>
      simp only [validateTrace, List.chain'_cons]
      by_cases h : b.timestamp < a.timestamp
      · rw [if_pos h]
        simp only [Bool.false_eq_true, false_iff]
        intro hc
        linarith [hc.1]
      · rw [if_neg h, ih]
        push_neg at h
        exact ⟨fun hc => ⟨h, hc⟩, fun hc => hc.2⟩

/-- Claim C8 counterexample: `AuditLogger.log` stores the stamped event at
the end of the internal sequence, but its TypeScript return type is void —
the call returns `undefined` (`none`), not the stored `AuditEvent`. -/
theorem auditLogger_log_returns_undefined :
    (AuditLogger.log ⟨[]⟩ ⟨"consent_granted", "user-1", []⟩ 100).1.events =
      [⟨100, "consent_granted", "user-1", []⟩] ∧
    (AuditLogger.log ⟨[]⟩ ⟨"consent_granted", "user-1", []⟩ 100).2 ≠
      some ⟨100, "consent_granted", "user-1", []⟩ := by
  refine ⟨rfl, ?_⟩
  simp [AuditLogger.log]

/-- Claim C8 amended: `AuditLogger.log` stamps the event with the current
time and appends it to the end of the internal ordered sequence, but it
returns void (`undefined`), not the stored event. -/
theorem auditLogger_log_appends_stamped_event (logger : AuditLogger)
    (event : AuditEventInput) (now : ℚ) :
    (logger.log event now).1.events =
      logger.events ++ [⟨now, event.eventType, event.userId, event.data⟩] ∧
    (logger.log event now).2 = none :=
  ⟨rfl, rfl⟩

/-- Claim C9: `calculateTrustDelta` preserves baseline and current, returns
delta 0 in the degenerate all-zero case and `current − baseline` otherwise,
with no clamping of any field. -/
theorem calculateTrustDelta_spec (baseline current : ℚ) :
    (calculateTrustDelta baseline current).baseline = baseline ∧
    (calculateTrustDelta baseline current).current = current ∧
    (baseline = 0 ∧ current = 0 →
      (calculateTrustDelta baseline current).delta = 0) ∧
    (¬ (baseline = 0 ∧ current = 0) →
      (calculateTrustDelta baseline current).delta = current - baseline) := by
  by_cases h : baseline = 0 ∧ current = 0 <;>
    simp [calculateTrustDelta, h]

/-- Claim C9 witness: the degenerate zero/zero case and a generic case at
`baseline = 4/5`, `current = 3/5`. -/
theorem calculateTrustDelta_spec_witness :
    (calculateTrustDelta 0 0).delta = 0 ∧
    (calculateTrustDelta (4/5) (3/5)).delta = 3/5 - 4/5 :=
  ⟨(calculateTrustDelta_spec 0 0).2.2.1 ⟨rfl, rfl⟩,
   (calculateTrustDelta_spec (4/5) (3/5)).2.2.2 (by norm_num)⟩

/-- Claim C10: the `ConsentStateMachine` constructor takes an optional
initial state defaulting to pending; for every state `s` — including the
terminal states — a machine constructed with explicit initial state `s`
reports `getState = s` immediately after construction. -/
theorem mkConsentStateMachine_initial_state (s : ConsentState) :
    (mkConsentStateMachine s).getState = s ∧
    ConsentStateMachine.getState mkConsentStateMachine = ConsentState.pending :=
  ⟨rfl, rfl⟩

end EIS
